import Mathlib

/-!
Verification development for the chat-driven ordering assistant
(Data_Management_Chatbot).  The pricing engine, cart store, order
services and the relevant branches of the chat dispatcher are embedded
as executable Lean definitions, translated from `app/database_service.py`,
`app/enhanced_order_service.py`, `app/order_service.py` and
`app/chatbot.py`.  Money is modelled as rationals; Python's
`round(x, 2)` is modelled as rounding half-up to two decimals (the
claims examined here never hit a tie).
-/

/-- Substring test on lists of characters; `startsWithList pat l` is true
when `pat` is an initial segment of `l`. -/
def startsWithList : List Char → List Char → Bool
  | [], _ => true
  | _ :: _, [] => false
  | a :: as, b :: bs => a == b && startsWithList as bs

/-- Occurrence test on lists of characters: does `pat` occur contiguously
inside `l`? -/
def occursInList (pat : List Char) : List Char → Bool
  | [] => startsWithList pat []
  | a :: t => startsWithList pat (a :: t) || occursInList pat t

/-- Model of Python's substring operator `pat in s`. -/
def occursIn (s pat : String) : Bool :=
  occursInList pat.data s.data

/-- Update the first element of a list satisfying `p` with `f`; the model
of the "find the matching row, mutate it, break" loops in the source. -/
def updateFirst {α : Type} (p : α → Bool) (f : α → α) : List α → List α
  | [] => []
  | a :: t => if p a then f a :: t else a :: updateFirst p f t

/-- Model of Python's `round(x, 2)`: round to two decimal places
(half-up on ties). -/
def round2 (x : ℚ) : ℚ :=
  ((⌊x * 100 + 1 / 2⌋ : ℤ) : ℚ) / 100

/-- One catalog row, from the `Product` model as used by
`app/database_service.py` (price, flat discount, scheme label and the
stock counter `available_for_sale`). -/
structure Product where
  id : ℕ
  product_code : String
  product_name : String
  price_of_product : ℚ
  discount : ℚ
  scheme : Option String
  available_for_sale : ℤ
  deriving Repr, DecidableEq

/-- The pricing breakdown dictionary returned by
`DatabaseService.get_product_pricing`. -/
structure PricingInfo where
  final_price : ℚ
  discount_percentage : ℚ
  scheme_name : Option String
  total_amount : ℚ
  total_quantity : ℕ
  paid_quantity : ℕ
  free_quantity : ℕ
  base_price : ℚ
  discount_amount : ℚ
  deriving Repr, DecidableEq

/-- The scheme dispatch of `get_product_pricing`
(`app/database_service.py` lines 461-522): given the scheme label, the
price after the flat discount and the quantity, produce
(final price, paid quantity, free quantity).  The label tests are the
source's Python `in` substring tests, in the source's order. -/
def scheme_breakdown (scheme : Option String) (price_after_discount : ℚ)
    (quantity : ℕ) : ℚ × ℕ × ℕ :=
  match scheme with
  | none => (price_after_discount, quantity, 0)
  | some s =>
    if occursIn s "Buy 3 Get 2 Free" ∧ 3 ≤ quantity then
      let scheme_groups := quantity / 5
      let remaining_items := quantity % 5
      let free_quantity := scheme_groups * 2
      let paid_quantity := scheme_groups * 3
      if 3 ≤ remaining_items then
        (price_after_discount, paid_quantity + 3, free_quantity + 2)
      else
        (price_after_discount, paid_quantity + remaining_items, free_quantity)
    else if occursIn s "Buy 2 Get 1 Free" ∧ 2 ≤ quantity then
      let scheme_groups := quantity / 3
      let remaining_items := quantity % 3
      let free_quantity := scheme_groups * 1
      let paid_quantity := scheme_groups * 2
      if 2 ≤ remaining_items then
        (price_after_discount, paid_quantity + remaining_items, free_quantity)
      else if remaining_items = 1 then
        (price_after_discount, paid_quantity + 1, free_quantity)
      else
        (price_after_discount, paid_quantity, free_quantity)
    else if occursIn s "Buy 1 Get 20% Off" ∧ 1 ≤ quantity then
      (price_after_discount * 0.80, quantity, 0)
    else if occursIn s "Buy 1 Get 15% Off" ∧ 1 ≤ quantity then
      (price_after_discount * 0.85, quantity, 0)
    else if occursIn s "Buy 2 Get 25% Off" ∧ 2 ≤ quantity then
      (price_after_discount * 0.75, quantity, 0)
    else
      (price_after_discount, quantity, 0)

/-- The Python truthiness idiom `product.scheme if product.scheme else None`
(`app/database_service.py` line 445): an empty label degrades to no
scheme. -/
def normalize_scheme : Option String → Option String
  | some s => if s = "" then none else some s
  | none => none

/-- `DatabaseService.get_product_pricing` (`app/database_service.py`
lines 426-541).  `none` is the product-not-found dictionary; for a found
product the scheme dispatch runs on the price after the flat discount,
and money fields are rounded to two decimals only in the returned
record, as in the source. -/
def get_product_pricing (product : Option Product) (quantity : ℕ) : PricingInfo :=
  match product with
  | none =>
    { final_price := 0, discount_percentage := 0, scheme_name := none,
      total_amount := 0, total_quantity := quantity, paid_quantity := quantity,
      free_quantity := 0, base_price := 0, discount_amount := 0 }
  | some product =>
    let base_price := product.price_of_product
    let discount_amount := product.discount
    let scheme : Option String := normalize_scheme product.scheme
    let discount_percentage : ℚ :=
      if 0 < discount_amount then discount_amount / base_price * 100 else 0
    let price_after_discount := base_price - discount_amount
    let b := scheme_breakdown scheme price_after_discount quantity
    let final_price := b.1
    let paid_quantity := b.2.1
    let free_quantity := b.2.2
    let total_amount := final_price * paid_quantity
    { final_price := round2 final_price,
      discount_percentage := round2 discount_percentage,
      scheme_name := scheme,
      total_amount := round2 total_amount,
      total_quantity := quantity,
      paid_quantity := paid_quantity,
      free_quantity := free_quantity,
      base_price := round2 base_price,
      discount_amount := round2 discount_amount }

/-- Sample product QB001 from `DatabaseService.create_sample_products`
(stock taken as the full sample quantity). -/
def QB001 : Product :=
  { id := 1, product_code := "QB001", product_name := "Quantum Processor",
    price_of_product := 2500, discount := 150,
    scheme := some "Buy 2 Get 1 Free", available_for_sale := 100 }

/-- Sample product QB002 from `DatabaseService.create_sample_products`. -/
def QB002 : Product :=
  { id := 2, product_code := "QB002", product_name := "Neural Network Module",
    price_of_product := 1200, discount := 100,
    scheme := some "Buy 1 Get 20% Off", available_for_sale := 50 }

/-- Sample product QB003 from `DatabaseService.create_sample_products`. -/
def QB003 : Product :=
  { id := 3, product_code := "QB003", product_name := "AI Memory Card",
    price_of_product := 800, discount := 50,
    scheme := some "Buy 3 Get 2 Free", available_for_sale := 200 }

/-- The Buy 3 Get 2 Free branch of the scheme dispatch, with the label
tests evaluated. -/
lemma scheme_breakdown_b3g2 (pad : ℚ) (q : ℕ) (h : 3 ≤ q) :
    scheme_breakdown (some "Buy 3 Get 2 Free") pad q =
      if 3 ≤ q % 5 then (pad, q / 5 * 3 + 3, q / 5 * 2 + 2)
      else (pad, q / 5 * 3 + q % 5, q / 5 * 2) := by
  have h1 : occursIn "Buy 3 Get 2 Free" "Buy 3 Get 2 Free" = true := by decide
  simp [scheme_breakdown, h1, h]

/-- The Buy 2 Get 1 Free branch of the scheme dispatch, with the label
tests evaluated. -/
lemma scheme_breakdown_b2g1 (pad : ℚ) (q : ℕ) (h : 2 ≤ q) :
    scheme_breakdown (some "Buy 2 Get 1 Free") pad q =
      if 2 ≤ q % 3 then (pad, q / 3 * 2 + q % 3, q / 3 * 1)
      else if q % 3 = 1 then (pad, q / 3 * 2 + 1, q / 3 * 1)
      else (pad, q / 3 * 2, q / 3 * 1) := by
  have h1 : occursIn "Buy 2 Get 1 Free" "Buy 3 Get 2 Free" = false := by decide
  have h2 : occursIn "Buy 2 Get 1 Free" "Buy 2 Get 1 Free" = true := by decide
  simp [scheme_breakdown, h1, h2, h]

/-- Below the Buy 2 Get 1 Free threshold the dispatch falls through to
the default branch. -/
lemma scheme_breakdown_b2g1_low (pad : ℚ) : ∀ q : ℕ, q < 2 →
    scheme_breakdown (some "Buy 2 Get 1 Free") pad q = (pad, q, 0) := by
  have h1 : occursIn "Buy 2 Get 1 Free" "Buy 3 Get 2 Free" = false := by decide
  have h3 : occursIn "Buy 2 Get 1 Free" "Buy 1 Get 20% Off" = false := by decide
  have h4 : occursIn "Buy 2 Get 1 Free" "Buy 1 Get 15% Off" = false := by decide
  have h5 : occursIn "Buy 2 Get 1 Free" "Buy 2 Get 25% Off" = false := by decide
  intro q hq
  simp [scheme_breakdown, h1, h3, h4, h5]
  omega

/-- Pointwise evaluation of the pricing engine: Quantum Processor, qty 5
(spec Scenario A data with the catalog's flat discount of 150). -/
lemma pricing_QB001_5 :
    get_product_pricing (some QB001) 5 =
      { final_price := 2350, discount_percentage := 6,
        scheme_name := some "Buy 2 Get 1 Free", total_amount := 9400,
        total_quantity := 5, paid_quantity := 4, free_quantity := 1,
        base_price := 2500, discount_amount := 150 } := by
  simp only [get_product_pricing, QB001, normalize_scheme, round2]
  rw [if_neg (by decide)]
  rw [scheme_breakdown_b2g1 _ 5 (by norm_num)]
  norm_num

/-- Pointwise evaluation of the pricing engine: AI Memory Card, qty 3. -/
lemma pricing_QB003_3 :
    get_product_pricing (some QB003) 3 =
      { final_price := 750, discount_percentage := 6.25,
        scheme_name := some "Buy 3 Get 2 Free", total_amount := 2250,
        total_quantity := 3, paid_quantity := 3, free_quantity := 2,
        base_price := 800, discount_amount := 50 } := by
  simp only [get_product_pricing, QB003, normalize_scheme, round2]
  rw [if_neg (by decide)]
  rw [scheme_breakdown_b3g2 _ 3 (by norm_num)]
  norm_num

/-- Claim C1, counterexample: for the Buy 3 Get 2 Free product QB003 at
quantity 3 (at the scheme threshold), the breakdown reports
paid 3 + free 2 = 5, not 3. -/
theorem C1_counterexample :
    QB003.scheme = some "Buy 3 Get 2 Free" ∧
    (get_product_pricing (some QB003) 3).paid_quantity
      + (get_product_pricing (some QB003) 3).free_quantity ≠ 3 := by
  refine ⟨rfl, ?_⟩
  rw [pricing_QB003_3]
  decide

/-- Claim C1 (amended): for a Buy 2 Get 1 Free scheme at or above its
threshold, paid + free equals the requested quantity; for a Buy 3 Get 2
Free scheme at or above its threshold, paid + free equals the requested
quantity exactly when the quantity's remainder modulo 5 is at most 2,
and otherwise exceeds it by 5 minus that remainder (the code grants a
whole extra group). -/
theorem C1_paid_plus_free (p2 p3 : Product) (q2 q3 : ℕ)
    (h2s : p2.scheme = some "Buy 2 Get 1 Free") (h2q : 2 ≤ q2)
    (h3s : p3.scheme = some "Buy 3 Get 2 Free") (h3q : 3 ≤ q3) :
    (get_product_pricing (some p2) q2).paid_quantity
        + (get_product_pricing (some p2) q2).free_quantity = q2
    ∧ (get_product_pricing (some p3) q3).paid_quantity
        + (get_product_pricing (some p3) q3).free_quantity
        = (if q3 % 5 ≤ 2 then q3 else q3 + (5 - q3 % 5)) := by
  constructor
  · simp only [get_product_pricing, h2s, normalize_scheme]
    rw [if_neg (by decide)]
    rw [scheme_breakdown_b2g1 _ q2 h2q]
    split_ifs <;> simp <;> omega
  · simp only [get_product_pricing, h3s, normalize_scheme]
    rw [if_neg (by decide)]
    rw [scheme_breakdown_b3g2 _ q3 h3q]
    split_ifs <;> simp <;> omega

/-- Witness for C1_paid_plus_free at QB001 (qty 5) and QB003 (qty 8). -/
theorem C1_paid_plus_free_witness :
    (get_product_pricing (some QB001) 5).paid_quantity
        + (get_product_pricing (some QB001) 5).free_quantity = 5
    ∧ (get_product_pricing (some QB003) 8).paid_quantity
        + (get_product_pricing (some QB003) 8).free_quantity = 10 := by
  have h := C1_paid_plus_free QB001 QB003 5 8 rfl (by decide) rfl (by decide)
  simpa using h

/-- One cart line as built by `EnhancedOrderService.add_item_to_cart`
(`app/enhanced_order_service.py` lines 69-80) and by the add branch of
`process_message` (`app/chatbot.py` lines 335-344).  The volatile
`added_at` timestamp is not modelled. -/
structure CartItem where
  product_id : ℕ
  product_code : String
  product_name : String
  quantity : ℕ
  unit_price : ℚ
  final_price : ℚ
  discount_percentage : ℚ
  scheme_name : Option String
  item_total : ℚ
  deriving Repr, DecidableEq

/-- The per-session `order_session` dictionary (`app/chatbot.py` lines
72-81 and 224-236).  Timestamps, `cart_id` and `user_selections` are not
modelled. -/
structure OrderSession where
  status : String
  items : List CartItem
  total_cost : ℚ
  discount_applied : ℚ
  final_total : ℚ
  order_id : Option String
  pending_confirmation : Bool
  deriving Repr, DecidableEq

/-- `reset_order_session` (`app/chatbot.py` lines 72-81); also the fresh
cart written by `EnhancedOrderService.force_clear_cart` and
`clear_cart` (`app/enhanced_order_service.py` lines 306-362). -/
def reset_order_session : OrderSession :=
  { status := "idle", items := [], total_cost := 0, discount_applied := 0,
    final_total := 0, order_id := none, pending_confirmation := false }

/-- `DatabaseService.get_product_by_code`: first catalog row with the
given code. -/
def get_product_by_code (catalog : List Product) (code : String) : Option Product :=
  catalog.find? (fun p => p.product_code == code)

/-- `DatabaseService.get_product_by_code_and_warehouse`; the embedding
works with the single active warehouse's product list, so this is the
same first-match lookup. -/
def get_product_by_code_and_warehouse (catalog : List Product) (code : String) :
    Option Product :=
  catalog.find? (fun p => p.product_code == code)

/-- `DatabaseService` lookup by primary key `Product.id`. -/
def get_product_by_id (catalog : List Product) (pid : ℕ) : Option Product :=
  catalog.find? (fun p => p.id == pid)

/-- `EnhancedOrderService._recalculate_cart_totals`
(`app/enhanced_order_service.py` lines 364-381). -/
def _recalculate_cart_totals (s : OrderSession) : OrderSession :=
  let total_cost := (s.items.map (fun it => it.item_total)).sum
  let discount_applied :=
    (s.items.map (fun it =>
      if 0 < it.discount_percentage then
        (it.unit_price - it.final_price) * (it.quantity : ℚ)
      else 0)).sum
  { s with total_cost := total_cost, discount_applied := discount_applied,
           final_total := total_cost }

/-- `EnhancedOrderService.add_item_to_cart`
(`app/enhanced_order_service.py` lines 53-114): look the product up,
check stock, price the regquested quantity, then either bump the existing
line additively (quantity and line total only) or append a new line, and
recalculate the cart totals. -/
def add_item_to_cart (catalog : List Product) (product_code : String)
    (quantity : ℕ) (s : OrderSession) : Bool × OrderSession :=
  match get_product_by_code_and_warehouse catalog product_code with
  | none => (false, s)
  | some product =>
    if product.available_for_sale < (quantity : ℤ) then (false, s)
    else
      let pricing_info := get_product_pricing (some product) quantity
      let cart_item : CartItem :=
        { product_id := product.id, product_code := product_code,
          product_name := product.product_name, quantity := quantity,
          unit_price := pricing_info.base_price,
          final_price := pricing_info.final_price,
          discount_percentage := pricing_info.discount_percentage,
          scheme_name := pricing_info.scheme_name,
          item_total := pricing_info.total_amount }
      let items :=
        if s.items.any (fun it => it.product_code == product_code) then
          updateFirst (fun it => it.product_code == product_code)
            (fun it =>
              { it with quantity := it.quantity + quantity,
                        item_total := it.item_total + pricing_info.total_amount })
            s.items
        else
          s.items ++ [cart_item]
      (true, _recalculate_cart_totals { s with items := items })

/-- `EnhancedOrderService.remove_item_from_cart`
(`app/enhanced_order_service.py` lines 116-142). -/
def remove_item_from_cart (product_code : String) (s : OrderSession) :
    Bool × OrderSession :=
  let items := s.items.filter (fun it => !(it.product_code == product_code))
  if items.length = s.items.length then (false, s)
  else (true, _recalculate_cart_totals { s with items := items })

/-- The Flask session mapping as the cart code uses it: the
`order_session` value and the `order_code` key that
`EnhancedOrderService.update_item_quantity` line 147 tests for — no code
path ever writes that key. -/
structure FlaskSession where
  order_session : Option OrderSession
  order_code : Option String
  deriving Repr, DecidableEq

/-- `EnhancedOrderService.update_item_quantity`
(`app/enhanced_order_service.py` lines 144-187).  The guard is the
source's `if 'order_code' not in session` test; a missing
`order_session` under a present `order_code` raises KeyError, which the
surrounding except-handler turns into a failure with the session
untouched. -/
def update_item_quantity (catalog : List Product) (product_code : String)
    (new_quantity : ℤ) (fs : FlaskSession) : Bool × FlaskSession :=
  match fs.order_code with
  | none => (false, fs)
  | some _ =>
    match fs.order_session with
    | none => (false, fs)
    | some s =>
      match s.items.find? (fun it => it.product_code == product_code) with
      | none => (false, fs)
      | some it =>
        if new_quantity ≤ 0 then
          let r := remove_item_from_cart product_code s
          (r.1, { fs with order_session := some r.2 })
        else
          match get_product_by_code catalog product_code with
          | some product =>
            if product.available_for_sale < new_quantity then (false, fs)
            else
              let pricing_info :=
                get_product_pricing (get_product_by_id catalog it.product_id)
                  new_quantity.toNat
              let items := updateFirst (fun i => i.product_code == product_code)
                (fun i =>
                  { i with quantity := new_quantity.toNat,
                           final_price := pricing_info.final_price,
                           discount_percentage := pricing_info.discount_percentage,
                           scheme_name := pricing_info.scheme_name,
                           item_total := pricing_info.total_amount }) s.items
              let s2 := _recalculate_cart_totals { s with items := items }
              (true, { fs with order_session := some s2 })
          | none =>
            let pricing_info :=
              get_product_pricing (get_product_by_id catalog it.product_id)
                new_quantity.toNat
            let items := updateFirst (fun i => i.product_code == product_code)
              (fun i =>
                { i with quantity := new_quantity.toNat,
                         final_price := pricing_info.final_price,
                         discount_percentage := pricing_info.discount_percentage,
                         scheme_name := pricing_info.scheme_name,
                         item_total := pricing_info.total_amount }) s.items
            let s2 := _recalculate_cart_totals { s with items := items }
            (true, { fs with order_session := some s2 })

/-- Modelled from the spec: `Product.update_available_quantity` lives in
`app/models.py`, which is not part of the sources here.  The spec's
inventory interface exposes a single available count per product
(`Inventory.available(code) -> int`), so the call is modelled as
maintaining derived display fields and leaving `available_for_sale`
unchanged. -/
def update_available_quantity (p : Product) : Product := p

/-- One step of `DatabaseService.update_product_quantities`
(`app/database_service.py` lines 572-590): find the first product with
the code; decrement `available_for_sale` only when it covers the
requested quantity, otherwise log a warning and leave it alone. -/
def apply_quantity_update : List Product → String → ℕ → List Product
  | [], _, _ => []
  | p :: rest, code, qty =>
    if p.product_code == code then
      (if (qty : ℤ) ≤ p.available_for_sale then
        update_available_quantity
          { p with available_for_sale := p.available_for_sale - (qty : ℤ) } :: rest
      else p :: rest)
    else p :: apply_quantity_update rest code qty

/-- `DatabaseService.update_product_quantities`
(`app/database_service.py` lines 572-590): fold the requested
decrements over the inventory in order, commit, and return True. -/
def update_product_quantities (product_quantities : List (String × ℕ))
    (inventory : List Product) : List Product × Bool :=
  (product_quantities.foldl (fun acc cq => apply_quantity_update acc cq.1 cq.2)
    inventory, true)

/-- Build the new cart line of the chat add branch (`app/chatbot.py`
lines 335-344). -/
def mk_chat_item (product : Product) (quantity : ℕ) : CartItem :=
  let pricing_info := get_product_pricing (some product) quantity
  { product_id := product.id, product_code := product.product_code,
    product_name := product.product_name, quantity := quantity,
    unit_price := pricing_info.base_price,
    final_price := pricing_info.final_price,
    discount_percentage := pricing_info.discount_percentage,
    scheme_name := pricing_info.scheme_name,
    item_total := pricing_info.total_amount }

/-- The add branch of `process_message` (`app/chatbot.py` lines
259-439): the status is forced to confirming before any parsing (lines
263-266); `found` is the outcome of the regex patterns plus product
matching — `none` means no product could be identified and only the
clarification response is produced; on a match the existing line is
bumped additively or a new line is appended, and the running totals grow
by the delta pricing (lines 328-350).  `stage_fixup` is the entry
mutation, `chat_add_to_cart` the cart mutation, `add_branch` their
composition. -/
def stage_fixup (s : OrderSession) : OrderSession :=
  if ¬ (s.status = "confirming" ∨ s.status = "calculating") then
    { s with status := "confirming", pending_confirmation := true }
  else s

/-- The cart mutation of the chat add branch (`app/chatbot.py` lines
316-357), after the stage fixup. -/
def chat_add_to_cart (found : Option (Product × ℕ)) (s : OrderSession) :
    OrderSession :=
  match found with
  | none => s
  | some (product, quantity) =>
    let pricing_info := get_product_pricing (some product) quantity
    let items :=
      if s.items.any (fun it => it.product_code == product.product_code) then
        updateFirst (fun it => it.product_code == product.product_code)
          (fun it =>
            { it with quantity := it.quantity + quantity,
                      item_total := it.item_total + pricing_info.total_amount })
          s.items
      else
        s.items ++ [mk_chat_item product quantity]
    { s with items := items,
             total_cost := s.total_cost + pricing_info.total_amount,
             final_total := s.final_total + pricing_info.total_amount }

def add_branch (found : Option (Product × ℕ)) (s : OrderSession) : OrderSession :=
  chat_add_to_cart found (stage_fixup s)

/-- The remove branch of `process_message` (`app/chatbot.py` lines
442-500): only entered in the confirming/calculating stages; the first
cart line whose name contains the query (or whose code contains its
upper-case form) is removed and the totals are decremented by its line
total; an emptied cart goes back to idle. -/
def remove_branch (product_name : String) (s : OrderSession) : OrderSession :=
  if ¬ (s.status = "confirming" ∨ s.status = "calculating") then s
  else
    match s.items.find? (fun it =>
        occursIn it.product_name.toLower product_name.toLower
          || occursIn it.product_code product_name.toUpper) with
    | none => s
    | some it =>
      if (s.items.erase it).isEmpty then
        { s with status := "idle", items := s.items.erase it,
                 total_cost := s.total_cost - it.item_total,
                 final_total := s.final_total - it.item_total }
      else
        { s with items := s.items.erase it,
                 total_cost := s.total_cost - it.item_total,
                 final_total := s.final_total - it.item_total }

/-- One cart mutation, as the claims' "sequence of cart mutations": the
chat add and remove branches, and the enhanced service's add, remove and
set-quantity operations. -/
inductive CartOp where
  | chatAdd (found : Option (Product × ℕ))
  | chatRemove (product_name : String)
  | svcAdd (code : String) (qty : ℕ)
  | svcRemove (code : String)
  | svcSetQty (code : String) (qty : ℤ)
  deriving Repr

/-- Apply one cart mutation to the session cart.  The set-quantity
operation goes through `update_item_quantity` on a Flask session without
an `order_code` key, which is the only session shape the program ever
produces. -/
def applyCartOp (catalog : List Product) (s : OrderSession) : CartOp → OrderSession
  | CartOp.chatAdd found => add_branch found s
  | CartOp.chatRemove name => remove_branch name s
  | CartOp.svcAdd code qty => (add_item_to_cart catalog code qty s).2
  | CartOp.svcRemove code => (remove_item_from_cart code s).2
  | CartOp.svcSetQty code qty =>
    ((update_item_quantity catalog code qty
        { order_session := some s, order_code := none }).2.order_session).getD s

/-- The cart invariant of the spec: the stored total is the sum of the
line totals, and the final total equals it. -/
def cartInvariant (s : OrderSession) : Prop :=
  s.total_cost = (s.items.map (fun it => it.item_total)).sum
    ∧ s.final_total = s.total_cost

/-- One persisted order line, from `DatabaseService.add_order_item`
(`app/database_service.py` lines 123-137). -/
structure OrderItemRec where
  product_id : ℕ
  product_code : String
  product_quantity_ordered : ℕ
  unit_price : ℚ
  total_price : ℚ
  deriving Repr, DecidableEq

/-- A persisted order: its generated id, line snapshots, total and
status. -/
structure OrderRec where
  order_id : String
  items : List OrderItemRec
  total_amount : ℚ
  status : String
  deriving Repr, DecidableEq

/-- The stock-validation loop of
`EnhancedOrderService.create_order_from_cart`
(`app/enhanced_order_service.py` lines 421-427): the first missing
product or insufficient line fails the whole call. -/
def validate_items_available (inventory : List Product) :
    List (String × ℕ) → Bool
  | [] => true
  | (code, qty) :: rest =>
    match get_product_by_code_and_warehouse inventory code with
    | none => false
    | some p =>
      if p.available_for_sale < (qty : ℤ) then false
      else validate_items_available inventory rest

/-- The order-building loop of
`EnhancedOrderService.create_order_from_cart`
(`app/enhanced_order_service.py` lines 441-463): each line is re-priced
through `get_product_pricing` against the current catalog state, an
order item is recorded with that recomputed unit price and total, and
the inventory is decremented line by line; a line whose product lookup
fails is skipped. -/
def enh_add_items : List (String × ℕ) → List Product →
    List OrderItemRec × ℚ × List Product
  | [], inventory => ([], 0, inventory)
  | (code, qty) :: rest, inventory =>
    match get_product_by_code inventory code with
    | none => enh_add_items rest inventory
    | some product =>
      let pricing_info := get_product_pricing (some product) qty
      let item : OrderItemRec :=
        { product_id := product.id, product_code := code,
          product_quantity_ordered := qty,
          unit_price := pricing_info.final_price,
          total_price := pricing_info.total_amount }
      let inventory2 := (update_product_quantities [(code, qty)] inventory).1
      let r := enh_add_items rest inventory2
      (item :: r.1, pricing_info.total_amount + r.2.1, r.2.2)

/-- `EnhancedOrderService.create_order_from_cart`
(`app/enhanced_order_service.py` lines 414-479): abort with no order and
untouched inventory when the cart is empty or any line fails
validation; otherwise build the order (confirmed, with the accumulated
total) while reserving stock.  `new_order_id` stands for the id
generated by `Order.generate_order_id` in the absent `app/models.py`. -/
def enhanced_create_order_from_cart (new_order_id : String)
    (cart_items : List (String × ℕ)) (inventory : List Product) :
    Option OrderRec × List Product :=
  if cart_items.isEmpty then (none, inventory)
  else if ¬ validate_items_available inventory cart_items then (none, inventory)
  else
    let r := enh_add_items cart_items inventory
    (some { order_id := new_order_id, items := r.1, total_amount := r.2.1,
            status := "confirmed" }, r.2.2)

/-- `OrderService._validate_cart_items` (`app/order_service.py` lines
71-104): lines with a blank code, a non-positive quantity, a missing
product or insufficient stock are silently skipped; each surviving line
is captured with the product's base `price_of_product` as unit price. -/
def _validate_cart_items (inventory : List Product) :
    List (String × ℕ) → List (ℕ × String × ℕ × ℚ)
  | [] => []
  | (code, qty) :: rest =>
    if code = "" ∨ qty = 0 then _validate_cart_items inventory rest
    else
      match get_product_by_code_and_warehouse inventory code with
      | none => _validate_cart_items inventory rest
      | some p =>
        if p.available_for_sale < (qty : ℤ) then
          _validate_cart_items inventory rest
        else
          (p.id, code, qty, p.price_of_product) :: _validate_cart_items inventory rest

/-- The order-building loop of `OrderService.create_order_from_cart`
(`app/order_service.py` lines 40-53): each validated line becomes an
order item at the captured unit price (`add_order_item` fills
`total_price = quantity * unit_price`), and the inventory is decremented
line by line. -/
def os_add_items : List (ℕ × String × ℕ × ℚ) → List Product →
    List OrderItemRec × ℚ × List Product
  | [], inventory => ([], 0, inventory)
  | (pid, code, qty, price) :: rest, inventory =>
    let item : OrderItemRec :=
      { product_id := pid, product_code := code,
        product_quantity_ordered := qty, unit_price := price,
        total_price := (qty : ℚ) * price }
    let inventory2 := (update_product_quantities [(code, qty)] inventory).1
    let r := os_add_items rest inventory2
    (item :: r.1, item.total_price + r.2.1, r.2.2)

/-- `OrderService.create_order_from_cart` (`app/order_service.py` lines
19-69): validate (dropping bad lines), abort only when nothing
validates, otherwise create a confirmed order from the surviving
lines. -/
def order_service_create_order_from_cart (new_order_id : String)
    (cart_items : List (String × ℕ)) (inventory : List Product) :
    Option OrderRec × List Product :=
  let validated := _validate_cart_items inventory cart_items
  if validated.isEmpty then (none, inventory)
  else
    let r := os_add_items validated inventory
    (some { order_id := new_order_id, items := r.1, total_amount := r.2.1,
            status := "confirmed" }, r.2.2)

/-- The message-shape tests of the PLACE_ORDER branch
(`app/chatbot.py` lines 556-565): simple confirmation, detailed
confirmation and finalize-keyword detection. -/
structure MsgFlags where
  is_simple_confirmation : Bool
  is_detailed_confirmation : Bool
  is_finalizing : Bool
  deriving Repr, DecidableEq

/-- `has_order_session` (`app/chatbot.py` line 568): the cart counts as
live when its stage fits and it has items, or simply when it has
items. -/
def has_order_session (s : OrderSession) : Bool :=
  ((s.status == "calculating" || s.status == "confirming")
      && !s.items.isEmpty)
    || !s.items.isEmpty

/-- The cart-merge loop of the PLACE_ORDER parse branch
(`app/chatbot.py` lines 876-885): each parsed line is merged additively
into the existing items. -/
def merge_order_items (existing new_items : List CartItem) : List CartItem :=
  new_items.foldl (fun acc ni =>
    if acc.any (fun it => it.product_code == ni.product_code) then
      updateFirst (fun it => it.product_code == ni.product_code)
        (fun it =>
          { it with quantity := it.quantity + ni.quantity,
                    item_total := it.item_total + ni.item_total }) acc
    else acc ++ [ni]) existing

/-- The session/inventory/order outcome of a finalize attempt through
`EnhancedOrderService.create_order_from_cart` (`app/chatbot.py` lines
700-716): on success the session is force-cleared to the fresh idle
cart; on failure it is left alone. -/
def finalize_success_step (s : OrderSession)
    (r : Option OrderRec × List Product) :
    OrderSession × List Product × Option OrderRec :=
  match r.1 with
  | some o => (reset_order_session, r.2, some o)
  | none => (s, r.2, none)

/-- The session/inventory/order outcome of a finalize attempt through
`OrderService.create_order_from_cart` (`app/chatbot.py` lines 1147-1172
and 1188-1213): on success the session keeps its items and is marked
completed with the order id; on failure it is left alone. -/
def finalize_completed_step (s : OrderSession)
    (r : Option OrderRec × List Product) :
    OrderSession × List Product × Option OrderRec :=
  match r.1 with
  | some o =>
    ({ s with status := "completed", order_id := some o.order_id }, r.2, some o)
  | none => (s, r.2, none)

/-- The PLACE_ORDER intent branch of `process_message`
(`app/chatbot.py` lines 552-1240) after the completed-cart force-clear,
as one step on (order session, inventory) returning also the order
created by a successful finalize.  `parsed_items` stands for the lines
the regex / LLM product parsing extracts from the message,
`llm_ready`/`llm_cart` for the outcome of `parse_order_details` on the
conversation, and `new_order_id` for the generated order id.  The chain
mirrors the source's returns: the enhanced-service finalize (lines
682-767) force-clears the session after success; the plain parse path
(lines 771-988) builds or extends a confirming cart; the
detailed-confirmation path rebuilds the cart; the `order_service`
finalize at lines 1134-1172 sits behind the same guard as the enhanced
one and is unreachable; the parse-from-conversation finalize (lines
1174-1216) marks the session completed without clearing it. -/
def place_order_after_clear (new_order_id : String) (flags : MsgFlags)
    (parsed_items : List CartItem) (llm_ready : Bool)
    (llm_cart : List (String × ℕ)) (s : OrderSession)
    (inventory : List Product) :
    OrderSession × List Product × Option OrderRec :=
  let hos := has_order_session s
  if !hos && !flags.is_simple_confirmation && !flags.is_finalizing then
    ({ s with status := "browsing" }, inventory, none)
  else if flags.is_simple_confirmation && hos then
    (s, inventory, none)
  else if flags.is_finalizing && hos then
    finalize_success_step s
      (enhanced_create_order_from_cart new_order_id
        (s.items.map (fun it => (it.product_code, it.quantity))) inventory)
  else if !flags.is_detailed_confirmation && !flags.is_simple_confirmation then
    if !parsed_items.isEmpty then
      if hos then
        let merged := merge_order_items s.items parsed_items
        let t := (merged.map (fun it => it.item_total)).sum
        ({ s with items := merged, total_cost := t, final_total := t,
                  status := "confirming" }, inventory, none)
      else
        let t := (parsed_items.map (fun it => it.item_total)).sum
        ({ s with status := "confirming", items := parsed_items,
                  total_cost := t, final_total := t }, inventory, none)
    else (s, inventory, none)
  else if flags.is_detailed_confirmation then
    let t := (parsed_items.map (fun it => it.item_total)).sum
    ({ s with status := "confirming", items := parsed_items,
              total_cost := t, final_total := t,
              pending_confirmation := true }, inventory, none)
  else if flags.is_finalizing && hos then
    finalize_completed_step s
      (order_service_create_order_from_cart new_order_id
        (s.items.map (fun it => (it.product_code, it.quantity))) inventory)
  else if flags.is_finalizing && !hos then
    if llm_ready && !llm_cart.isEmpty then
      finalize_completed_step s
        (order_service_create_order_from_cart new_order_id llm_cart inventory)
    else (s, inventory, none)
  else
    ({ s with status := "browsing" }, inventory, none)

/-- The full PLACE_ORDER intent branch: the completed-cart force-clear
on entry (`app/chatbot.py` lines 571-576) followed by the dispatch. -/
def place_order_branch (new_order_id : String) (flags : MsgFlags)
    (parsed_items : List CartItem) (llm_ready : Bool)
    (llm_cart : List (String × ℕ)) (s0 : OrderSession)
    (inventory : List Product) :
    OrderSession × List Product × Option OrderRec :=
  place_order_after_clear new_order_id flags parsed_items llm_ready llm_cart
    (if s0.status == "completed" then reset_order_session else s0) inventory

lemma apply_quantity_update_nonneg (c : String) (q : ℕ) :
    ∀ inv : List Product, (∀ p ∈ inv, 0 ≤ p.available_for_sale) →
      ∀ p ∈ apply_quantity_update inv c q, 0 ≤ p.available_for_sale := by
  intro inv
  induction inv with
  | nil => intro _ p hp; simp [apply_quantity_update] at hp
  | cons a t ih =>
    intro h p hp
    have ha : 0 ≤ a.available_for_sale := h a (List.mem_cons_self a t)
    have ht : ∀ p ∈ t, 0 ≤ p.available_for_sale :=
      fun p hp => h p (List.mem_cons_of_mem a hp)
    simp only [apply_quantity_update, update_available_quantity] at hp
    by_cases hc : (a.product_code == c) = true
    · rw [if_pos hc] at hp
      by_cases hq : (q : ℤ) ≤ a.available_for_sale
      · rw [if_pos hq] at hp
        rcases List.mem_cons.mp hp with h1 | h2
        · subst h1; simpa using by omega
        · exact ht p h2
      · rw [if_neg hq] at hp
        rcases List.mem_cons.mp hp with h1 | h2
        · subst h1; exact ha
        · exact ht p h2
    · rw [if_neg hc] at hp
      rcases List.mem_cons.mp hp with h1 | h2
      · subst h1; exact ha
      · exact ih ht p h2

lemma update_product_quantities_nonneg (reqs : List (String × ℕ)) :
    ∀ inv : List Product, (∀ p ∈ inv, 0 ≤ p.available_for_sale) →
      ∀ p ∈ (update_product_quantities reqs inv).1, 0 ≤ p.available_for_sale := by
  induction reqs with
  | nil => intro inv h; simpa [update_product_quantities] using h
  | cons cq rest ih =>
    intro inv h
    have step := apply_quantity_update_nonneg cq.1 cq.2 inv h
    have := ih (apply_quantity_update inv cq.1 cq.2) step
    simpa [update_product_quantities] using this

lemma apply_quantity_update_skip (c : String) (q : ℕ) :
    ∀ inv : List Product, ∀ p : Product,
      get_product_by_code inv c = some p →
      p.available_for_sale < (q : ℤ) →
      apply_quantity_update inv c q = inv := by
  intro inv
  induction inv with
  | nil => intro p hp; simp [get_product_by_code] at hp
  | cons a t ih =>
    intro p hp hlt
    simp only [get_product_by_code, List.find?_cons] at hp
    cases hc : a.product_code == c with
    | true =>
      rw [hc] at hp
      injection hp with hp
      subst hp
      simp only [apply_quantity_update, hc, if_pos]
      rw [if_neg (by omega)]
    | false =>
      rw [hc] at hp
      have := ih p hp hlt
      simp only [apply_quantity_update, hc, Bool.false_eq_true, if_false]
      simp [this]

lemma apply_quantity_update_decrement (c : String) (q : ℕ) :
    ∀ inv : List Product, ∀ p : Product,
      get_product_by_code inv c = some p →
      (q : ℤ) ≤ p.available_for_sale →
      get_product_by_code (apply_quantity_update inv c q) c =
        some { p with available_for_sale := p.available_for_sale - (q : ℤ) } := by
  intro inv
  induction inv with
  | nil => intro p hp; simp [get_product_by_code] at hp
  | cons a t ih =>
    intro p hp hle
    simp only [get_product_by_code, List.find?_cons] at hp ⊢
    cases hc : a.product_code == c with
    | true =>
      rw [hc] at hp
      injection hp with hp
      subst hp
      simp only [apply_quantity_update, hc, if_pos, update_available_quantity]
      rw [if_pos hle]
      simp [List.find?_cons, hc]
    | false =>
      rw [hc] at hp
      simp only [apply_quantity_update, hc, Bool.false_eq_true, if_false]
      simp only [List.find?_cons, hc]
      exact ih p hp hle

/-- Claim C10: the bulk decrement `update_product_quantities` returns
True (even when lines are skipped), never drives any
`available_for_sale` below zero, skips a line whose requested quantity
exceeds the available stock (leaving the inventory untouched for that
line), and decrements by exactly the requested quantity when the stock
covers it. -/
theorem C10_update_product_quantities (reqs : List (String × ℕ))
    (inventory : List Product)
    (hpos : ∀ p ∈ inventory, 0 ≤ p.available_for_sale) :
    (update_product_quantities reqs inventory).2 = true
    ∧ (∀ p ∈ (update_product_quantities reqs inventory).1,
        0 ≤ p.available_for_sale)
    ∧ (∀ (c : String) (q : ℕ) (p : Product),
        get_product_by_code inventory c = some p →
        p.available_for_sale < (q : ℤ) →
        apply_quantity_update inventory c q = inventory)
    ∧ (∀ (c : String) (q : ℕ) (p : Product),
        get_product_by_code inventory c = some p →
        (q : ℤ) ≤ p.available_for_sale →
        get_product_by_code (apply_quantity_update inventory c q) c =
          some { p with available_for_sale := p.available_for_sale - (q : ℤ) }) := by
  refine ⟨rfl, update_product_quantities_nonneg reqs inventory hpos, ?_, ?_⟩
  · intro c q p hp hlt
    exact apply_quantity_update_skip c q inventory p hp hlt
  · intro c q p hp hle
    exact apply_quantity_update_decrement c q inventory p hp hle

/-- Witness for C10_update_product_quantities: one in-stock line and one
oversized line over the sample inventory. -/
theorem C10_update_product_quantities_witness :
    (update_product_quantities [("QB001", 2), ("QB003", 500)]
        [QB001, QB003]).2 = true
    ∧ (∀ p ∈ (update_product_quantities [("QB001", 2), ("QB003", 500)]
        [QB001, QB003]).1, 0 ≤ p.available_for_sale)
    ∧ (∀ (c : String) (q : ℕ) (p : Product),
        get_product_by_code [QB001, QB003] c = some p →
        p.available_for_sale < (q : ℤ) →
        apply_quantity_update [QB001, QB003] c q = [QB001, QB003])
    ∧ (∀ (c : String) (q : ℕ) (p : Product),
        get_product_by_code [QB001, QB003] c = some p →
        (q : ℤ) ≤ p.available_for_sale →
        get_product_by_code (apply_quantity_update [QB001, QB003] c q) c =
          some { p with available_for_sale := p.available_for_sale - (q : ℤ) }) :=
  C10_update_product_quantities [("QB001", 2), ("QB003", 500)] [QB001, QB003]
    (by decide)

/-- A Flask session as the program actually produces it: a live cart
holding one line of two QB001 units, and no `order_code` key (no code
path in the repository ever writes that key). -/
def c6_session : FlaskSession :=
  { order_session :=
      some (add_item_to_cart [QB001] "QB001" 2 reset_order_session).2,
    order_code := none }

/-- Claim C6, failing input: the cart holds the line QB001 x 2, yet
`update_item_quantity` with the new quantity 5 fails with the
no-active-cart answer and leaves the session untouched, because its
guard tests the never-written session key `order_code` instead of
`order_session`. -/
theorem C6_update_item_quantity_dead_guard :
    (∃ s, c6_session.order_session = some s
      ∧ s.items.map (fun it => (it.product_code, it.quantity)) = [("QB001", 2)])
    ∧ update_item_quantity [QB001] "QB001" 5 c6_session = (false, c6_session) := by
  constructor
  · exact ⟨_, rfl, rfl⟩
  · rfl

lemma validate_items_available_false (inventory : List Product)
    (cart : List (String × ℕ))
    (h : ∃ cq ∈ cart, ∃ p,
      get_product_by_code_and_warehouse inventory cq.1 = some p
        ∧ p.available_for_sale < (cq.2 : ℤ)) :
    validate_items_available inventory cart = false := by
  induction cart with
  | nil => obtain ⟨cq, hmem, _⟩ := h; simp at hmem
  | cons hd tl ih =>
    obtain ⟨c, q⟩ := hd
    obtain ⟨cq, hmem, p, hfind, hlt⟩ := h
    rcases List.mem_cons.mp hmem with heq | hmem2
    · subst heq
      simp only [validate_items_available, hfind]
      rw [if_pos hlt]
    · simp only [validate_items_available]
      cases hl : get_product_by_code_and_warehouse inventory c with
      | none => rfl
      | some p2 =>
        by_cases hq : p2.available_for_sale < (q : ℤ)
        · simp [hq]
        · have hrec := ih ⟨cq, hmem2, p, hfind, hlt⟩
          simp [hq, hrec]

/-- Claim C2 (amended): the live finalize path,
`EnhancedOrderService.create_order_from_cart`, aborts wholesale when any
cart line's requested quantity exceeds the available stock: no order is
created and the inventory is returned untouched, so no reservation of
any line survives. -/
theorem C2_enhanced_finalize_aborts (new_order_id : String)
    (cart_items : List (String × ℕ)) (inventory : List Product)
    (h : ∃ cq ∈ cart_items, ∃ p,
      get_product_by_code_and_warehouse inventory cq.1 = some p
        ∧ p.available_for_sale < (cq.2 : ℤ)) :
    enhanced_create_order_from_cart new_order_id cart_items inventory
      = (none, inventory) := by
  have hv := validate_items_available_false inventory cart_items h
  obtain ⟨cq, hmem, _⟩ := h
  have hne : cart_items.isEmpty = false := by
    cases cart_items with
    | nil => simp at hmem
    | cons a t => rfl
  simp [enhanced_create_order_from_cart, hne, hv]

/-- Witness for C2_enhanced_finalize_aborts: a one-line cart requesting
200 units of QB001 with 100 in stock. -/
theorem C2_enhanced_finalize_aborts_witness :
    enhanced_create_order_from_cart "QBORD0" [("QB001", 200)] [QB001]
      = (none, [QB001]) :=
  C2_enhanced_finalize_aborts "QBORD0" [("QB001", 200)] [QB001]
    ⟨("QB001", 200), by decide, QB001, rfl, by decide⟩

/-- Claim C2, counterexample: with a cart whose second line exceeds
stock (500 of QB003 against 200), `OrderService.create_order_from_cart`
still creates an order — containing only the first line — and the first
line's stock decrement (100 down to 98) survives. -/
theorem C2_counterexample :
    (get_product_by_code_and_warehouse [QB001, QB003] "QB003" = some QB003
      ∧ QB003.available_for_sale < (500 : ℤ))
    ∧ (order_service_create_order_from_cart "QBORD1"
        [("QB001", 2), ("QB003", 500)] [QB001, QB003]).1.isSome = true
    ∧ ((order_service_create_order_from_cart "QBORD1"
        [("QB001", 2), ("QB003", 500)] [QB001, QB003]).1.map
          (fun o => o.items.map
            (fun it => (it.product_code, it.product_quantity_ordered))))
        = some [("QB001", 2)]
    ∧ ((order_service_create_order_from_cart "QBORD1"
        [("QB001", 2), ("QB003", 500)] [QB001, QB003]).2.map
          (fun p => p.available_for_sale)) = [98, 200] := by
  exact ⟨⟨rfl, by decide⟩, rfl, rfl, rfl⟩

lemma sum_map_updateFirst {α : Type} (f : α → ℚ) (g : α → α) (p : α → Bool)
    (t : ℚ) (hfg : ∀ a, p a = true → f (g a) = f a + t) :
    ∀ l : List α, l.any p = true →
      ((updateFirst p g l).map f).sum = (l.map f).sum + t := by
  intro l
  induction l with
  | nil => intro h; simp at h
  | cons a l ih =>
    intro h
    by_cases hp : p a = true
    · simp only [updateFirst, if_pos hp, List.map_cons, List.sum_cons, hfg a hp]
      ring
    · have hl : l.any p = true := by
        rcases (List.any_eq_true).mp h with ⟨x, hx, hpx⟩
        rcases List.mem_cons.mp hx with rfl | hx2
        · exact absurd hpx hp
        · exact (List.any_eq_true).mpr ⟨x, hx2, hpx⟩
      simp only [updateFirst, if_neg hp, List.map_cons, List.sum_cons, ih hl]
      ring

lemma sum_map_erase {α : Type} [DecidableEq α] (f : α → ℚ) (l : List α)
    (a : α) (h : a ∈ l) :
    ((l.erase a).map f).sum = (l.map f).sum - f a := by
  have hp : l.Perm (a :: l.erase a) := List.perm_cons_erase h
  have := (hp.map f).sum_eq
  simp only [List.map_cons, List.sum_cons] at this
  rw [this]
  ring

lemma cartInvariant_reset : cartInvariant reset_order_session := by
  constructor <;> rfl

lemma cartInvariant_recalc (s : OrderSession) :
    cartInvariant (_recalculate_cart_totals s) := by
  constructor <;> rfl

lemma cartInvariant_stage_fixup (s : OrderSession) (h : cartInvariant s) :
    cartInvariant (stage_fixup s) := by
  unfold stage_fixup
  split
  · exact h
  · exact h

lemma cartInvariant_chat_add (found : Option (Product × ℕ)) (s : OrderSession)
    (h : cartInvariant s) : cartInvariant (chat_add_to_cart found s) := by
  obtain ⟨h1, h2⟩ := h
  rcases found with _ | ⟨product, quantity⟩
  · exact ⟨h1, h2⟩
  · simp only [chat_add_to_cart]
    by_cases hany :
      (s.items.any (fun it => it.product_code == product.product_code)) = true
    · rw [if_pos hany]
      have hfg : ∀ a : CartItem,
          (a.product_code == product.product_code) = true →
          (CartItem.item_total { a with quantity := a.quantity + quantity, item_total := a.item_total + (get_product_pricing (some product) quantity).total_amount }) = CartItem.item_total a + (get_product_pricing (some product) quantity).total_amount :=
        fun a _ => rfl
      have hsum := sum_map_updateFirst CartItem.item_total _ _ _ hfg
        s.items hany
      constructor
      · show s.total_cost
          + (get_product_pricing (some product) quantity).total_amount = _
        rw [show (fun it => it.item_total) = CartItem.item_total from rfl]
        rw [hsum, h1]
      · show s.final_total
          + (get_product_pricing (some product) quantity).total_amount = _
        rw [h2]
    · rw [if_neg hany]
      constructor
      · show s.total_cost
          + (get_product_pricing (some product) quantity).total_amount = _
        simp only [List.map_append, List.sum_append, List.map_cons,
          List.sum_cons, List.map_nil, List.sum_nil, h1]
        rw [show CartItem.item_total (mk_chat_item product quantity) = (get_product_pricing (some product) quantity).total_amount from rfl]
        ring
      · show s.final_total
          + (get_product_pricing (some product) quantity).total_amount = _
        rw [h2]

lemma cartInvariant_remove_branch (name : String) (s : OrderSession)
    (h : cartInvariant s) : cartInvariant (remove_branch name s) := by
  obtain ⟨h1, h2⟩ := h
  by_cases hst : ¬ (s.status = "confirming" ∨ s.status = "calculating")
  · simp only [remove_branch, if_pos hst]
    exact ⟨h1, h2⟩
  · cases hf : s.items.find? (fun it =>
        occursIn it.product_name.toLower name.toLower
          || occursIn it.product_code name.toUpper) with
    | none =>
      simp only [remove_branch, if_neg hst, hf]
      exact ⟨h1, h2⟩
    | some it =>
      simp only [remove_branch, if_neg hst, hf]
      have hmem : it ∈ s.items := List.mem_of_find?_eq_some hf
      have herase := sum_map_erase (fun x : CartItem => x.item_total)
        s.items it hmem
      split
      · constructor
        · show s.total_cost - it.item_total = _
          rw [herase, h1]
        · show s.final_total - it.item_total = s.total_cost - it.item_total
          rw [h2]
      · constructor
        · show s.total_cost - it.item_total = _
          rw [herase, h1]
        · show s.final_total - it.item_total = s.total_cost - it.item_total
          rw [h2]

lemma cartInvariant_svc_add (catalog : List Product) (code : String)
    (qty : ℕ) (s : OrderSession) (h : cartInvariant s) :
    cartInvariant (add_item_to_cart catalog code qty s).2 := by
  cases hl : get_product_by_code_and_warehouse catalog code with
  | none => simpa [add_item_to_cart, hl] using h
  | some p =>
    by_cases hq : p.available_for_sale < (qty : ℤ)
    · simpa [add_item_to_cart, hl, hq] using h
    · have hgoal : (add_item_to_cart catalog code qty s).2
          = _recalculate_cart_totals { s with items :=
            (if (s.items.any (fun it => it.product_code == code)) = true then
              updateFirst (fun it => it.product_code == code)
                (fun it =>
                  { it with quantity := it.quantity + qty, item_total := it.item_total + (get_product_pricing (some p) qty).total_amount })
                s.items
            else s.items ++ [{ product_id := p.id, product_code := code, product_name := p.product_name, quantity := qty, unit_price := (get_product_pricing (some p) qty).base_price, final_price := (get_product_pricing (some p) qty).final_price, discount_percentage := (get_product_pricing (some p) qty).discount_percentage, scheme_name := (get_product_pricing (some p) qty).scheme_name, item_total := (get_product_pricing (some p) qty).total_amount }]) } := by
        simp [add_item_to_cart, hl, hq]
      rw [hgoal]
      exact cartInvariant_recalc _

lemma cartInvariant_svc_remove (code : String) (s : OrderSession)
    (h : cartInvariant s) : cartInvariant (remove_item_from_cart code s).2 := by
  simp only [remove_item_from_cart]
  split
  · exact h
  · exact cartInvariant_recalc _

lemma cartInvariant_applyCartOp (catalog : List Product) (s : OrderSession)
    (op : CartOp) (h : cartInvariant s) :
    cartInvariant (applyCartOp catalog s op) := by
  cases op with
  | chatAdd found =>
    exact cartInvariant_chat_add found _ (cartInvariant_stage_fixup s h)
  | chatRemove name => exact cartInvariant_remove_branch name s h
  | svcAdd code qty => exact cartInvariant_svc_add catalog code qty s h
  | svcRemove code => exact cartInvariant_svc_remove code s h
  | svcSetQty code qty => exact h

lemma cartInvariant_foldl (catalog : List Product) :
    ∀ (ops : List CartOp) (s : OrderSession), cartInvariant s →
      cartInvariant (ops.foldl (applyCartOp catalog) s) := by
  intro ops
  induction ops with
  | nil => intro s h; exact h
  | cons op rest ih =>
    intro s h
    exact ih _ (cartInvariant_applyCartOp catalog s op h)

/-- Claim C5: after every sequence of cart mutations (chat add, chat
remove, service add, service remove, service set-quantity) applied to
the fresh session cart, the stored total equals the sum of the line
totals and the final total equals the stored total. -/
theorem C5_cart_totals_invariant (catalog : List Product) (ops : List CartOp) :
    cartInvariant (ops.foldl (applyCartOp catalog) reset_order_session) :=
  cartInvariant_foldl catalog ops reset_order_session cartInvariant_reset

/-- Pointwise evaluation of the pricing engine: Quantum Processor, qty 2. -/
lemma pricing_QB001_2 :
    get_product_pricing (some QB001) 2 =
      { final_price := 2350, discount_percentage := 6,
        scheme_name := some "Buy 2 Get 1 Free", total_amount := 4700,
        total_quantity := 2, paid_quantity := 2, free_quantity := 0,
        base_price := 2500, discount_amount := 150 } := by
  simp only [get_product_pricing, QB001, normalize_scheme, round2]
  rw [if_neg (by decide)]
  rw [scheme_breakdown_b2g1 _ 2 (by norm_num)]
  norm_num

/-- Pointwise evaluation of the pricing engine: Quantum Processor, qty 1
(below the scheme threshold). -/
lemma pricing_QB001_1 :
    get_product_pricing (some QB001) 1 =
      { final_price := 2350, discount_percentage := 6,
        scheme_name := some "Buy 2 Get 1 Free", total_amount := 2350,
        total_quantity := 1, paid_quantity := 1, free_quantity := 0,
        base_price := 2500, discount_amount := 150 } := by
  simp only [get_product_pricing, QB001, normalize_scheme, round2]
  rw [if_neg (by decide)]
  rw [scheme_breakdown_b2g1_low _ 1 (by norm_num)]
  norm_num

/-- Pointwise evaluation of the pricing engine: Quantum Processor, qty 3. -/
lemma pricing_QB001_3 :
    get_product_pricing (some QB001) 3 =
      { final_price := 2350, discount_percentage := 6,
        scheme_name := some "Buy 2 Get 1 Free", total_amount := 4700,
        total_quantity := 3, paid_quantity := 2, free_quantity := 1,
        base_price := 2500, discount_amount := 150 } := by
  simp only [get_product_pricing, QB001, normalize_scheme, round2]
  rw [if_neg (by decide)]
  rw [scheme_breakdown_b2g1 _ 3 (by norm_num)]
  norm_num

/-- The cart line created by adding two QB001 units to a fresh cart. -/
def qb001_line_2 : CartItem :=
  { product_id := 1, product_code := "QB001",
    product_name := "Quantum Processor", quantity := 2, unit_price := 2500,
    final_price := 2350, discount_percentage := 6,
    scheme_name := some "Buy 2 Get 1 Free", item_total := 4700 }

/-- Evaluation of the first add: two QB001 units into the fresh cart. -/
lemma add2_eval :
    (add_item_to_cart [QB001] "QB001" 2 reset_order_session).2 =
      { status := "idle", items := [qb001_line_2], total_cost := 4700,
        discount_applied := 300, final_total := 4700, order_id := none,
        pending_confirmation := false } := by
  have hl : get_product_by_code_and_warehouse [QB001] "QB001" = some QB001 := rfl
  simp only [add_item_to_cart, hl]
  rw [if_neg (by decide)]
  rw [pricing_QB001_2]
  simp only [reset_order_session, _recalculate_cart_totals, List.any_nil,
    Bool.false_eq_true, if_false, List.nil_append, List.map_cons,
    List.map_nil, List.sum_cons, List.sum_nil, qb001_line_2]
  norm_num
  exact ⟨rfl, rfl⟩

/-- The cart reached by adding two QB001 units and then one more: the
source merges additively, so the single line carries quantity 3 but line
total 4700 + 2350 = 7050. -/
def two_step_cart : OrderSession :=
  (add_item_to_cart [QB001] "QB001" 1
    (add_item_to_cart [QB001] "QB001" 2 reset_order_session).2).2

lemma two_step_cart_eval :
    two_step_cart =
      { status := "idle",
        items := [{ qb001_line_2 with quantity := 3, item_total := 7050 }],
        total_cost := 7050, discount_applied := 450, final_total := 7050,
        order_id := none, pending_confirmation := false } := by
  unfold two_step_cart
  rw [add2_eval]
  have hl : get_product_by_code_and_warehouse [QB001] "QB001" = some QB001 := rfl
  simp only [add_item_to_cart, hl]
  rw [if_neg (by decide)]
  rw [pricing_QB001_1]
  simp only [_recalculate_cart_totals, qb001_line_2, List.any_cons,
    List.any_nil, updateFirst, List.map_cons, List.map_nil, List.sum_cons,
    List.sum_nil]
  norm_num

lemma any_of_find? {α : Type} (p : α → Bool) (l : List α) (a : α)
    (h : l.find? p = some a) : l.any p = true :=
  List.any_eq_true.mpr ⟨a, List.mem_of_find?_eq_some h, List.find?_some h⟩

lemma find?_updateFirst {α : Type} (p : α → Bool) (f : α → α)
    (hpf : ∀ a, p (f a) = p a) :
    ∀ l : List α, (updateFirst p f l).find? p = (l.find? p).map f := by
  intro l
  induction l with
  | nil => rfl
  | cons a t ih =>
    by_cases hp : p a = true
    · simp [updateFirst, hp, List.find?_cons, hpf a]
    · have hp2 : p a = false := by simpa using hp
      simp [updateFirst, hp2, List.find?_cons, ih, hpf a]

/-- Claim C3, counterexample: adding 2 QB001 then 1 more yields a line
with quantity 3 whose line total is 7050 (4700 for the first add plus
2350 for the delta), while the scheme recomputed at quantity 3 charges
4700 — the merged line is priced additively, not recomputed. -/
theorem C3_counterexample :
    two_step_cart.items.map (fun it => (it.quantity, it.item_total))
        = [(3, 7050)]
    ∧ (get_product_pricing (some QB001) 3).total_amount = 4700
    ∧ ((7050 : ℚ) ≠ 4700) := by
  refine ⟨?_, ?_, by norm_num⟩
  · rw [two_step_cart_eval]; rfl
  · rw [pricing_QB001_3]

/-- Claim C3 (amended): when a line for the code already exists, a
successful `add_item_to_cart` leaves a single line for the code whose
quantity is the old quantity plus the added quantity, but whose line
total is the old line total plus the pricing of the added quantity
alone, every other pricing field (final price, scheme, discount)
staying as first computed — the scheme is not recomputed against the
full new quantity. -/
theorem C3_add_recomputes_only_delta (catalog : List Product) (code : String)
    (qty : ℕ) (s : OrderSession) (p : Product) (it : CartItem)
    (hfind : get_product_by_code_and_warehouse catalog code = some p)
    (hstock : ¬ p.available_for_sale < (qty : ℤ))
    (hit : s.items.find? (fun i => i.product_code == code) = some it) :
    (add_item_to_cart catalog code qty s).1 = true
    ∧ (add_item_to_cart catalog code qty s).2.items.find?
        (fun i => i.product_code == code)
      = some { it with quantity := it.quantity + qty, item_total := it.item_total + (get_product_pricing (some p) qty).total_amount } := by
  have hany := any_of_find? _ _ _ hit
  simp only [add_item_to_cart, hfind]
  rw [if_neg hstock]
  refine ⟨rfl, ?_⟩
  rw [if_pos hany]
  simp only [_recalculate_cart_totals]
  rw [find?_updateFirst (fun i => i.product_code == code) (fun i => { i with quantity := i.quantity + qty, item_total := i.item_total + (get_product_pricing (some p) qty).total_amount }) (fun a => rfl) s.items, hit]
  rfl

/-- Witness for C3_add_recomputes_only_delta: one more QB001 unit added
to the cart already holding two. -/
theorem C3_add_recomputes_only_delta_witness :
    (add_item_to_cart [QB001] "QB001" 1
        (add_item_to_cart [QB001] "QB001" 2 reset_order_session).2).1 = true
    ∧ (add_item_to_cart [QB001] "QB001" 1
        (add_item_to_cart [QB001] "QB001" 2 reset_order_session).2).2.items.find?
          (fun i => i.product_code == "QB001")
      = some { qb001_line_2 with quantity := qb001_line_2.quantity + 1, item_total := qb001_line_2.item_total + (get_product_pricing (some QB001) 1).total_amount } :=
  C3_add_recomputes_only_delta [QB001] "QB001" 1
    (add_item_to_cart [QB001] "QB001" 2 reset_order_session).2 QB001
    qb001_line_2 rfl (by decide) (by rw [add2_eval]; rfl)

/-- Claim C9, counterexample: starting from a cart that already holds a
line of two QB001 units, adding one more and then removing QB001 leaves
an empty cart — the removal deletes the whole merged line, so the prior
snapshot (one line) is not restored. -/
theorem C9_counterexample :
    (remove_item_from_cart "QB001"
        (add_item_to_cart [QB001] "QB001" 1
          (add_item_to_cart [QB001] "QB001" 2 reset_order_session).2).2).2.items
      = []
    ∧ (add_item_to_cart [QB001] "QB001" 2
        reset_order_session).2.items.length = 1 :=
  ⟨rfl, rfl⟩

/-- Claim C9 (amended): `addItem(code, q)` followed by `removeItem(code)`
restores the cart exactly, provided no line for the code existed before
and the cart's stored totals already satisfy the recalculation
equations (as every cart built by the service's own mutations does). -/
theorem C9_roundtrip (catalog : List Product) (code : String) (qty : ℕ)
    (s : OrderSession) (p : Product)
    (hfind : get_product_by_code_and_warehouse catalog code = some p)
    (hstock : ¬ p.available_for_sale < (qty : ℤ))
    (hnotin : ∀ it ∈ s.items, ¬ it.product_code = code)
    (htc : s.total_cost = (s.items.map (fun it => it.item_total)).sum)
    (hda : s.discount_applied = (s.items.map (fun it =>
        if 0 < it.discount_percentage then
          (it.unit_price - it.final_price) * (it.quantity : ℚ)
        else 0)).sum)
    (hft : s.final_total = s.total_cost) :
    (remove_item_from_cart code (add_item_to_cart catalog code qty s).2).2 = s := by
  have hnotany : (s.items.any (fun it => it.product_code == code)) = false := by
    rw [List.any_eq_false]
    intro it hmem
    simpa using hnotin it hmem
  have hfilter : s.items.filter (fun it => !(it.product_code == code)) = s.items := by
    rw [List.filter_eq_self]
    intro it hmem
    simpa using hnotin it hmem
  simp only [add_item_to_cart, hfind]
  rw [if_neg hstock]
  rw [if_neg (by simp [hnotany])]
  simp only [_recalculate_cart_totals, remove_item_from_cart]
  rw [List.filter_append, hfilter]
  have hci : ∀ ci : CartItem, ci.product_code = code →
      List.filter (fun it => !(it.product_code == code)) [ci] = [] := by
    intro ci hc
    simp [hc]
  rw [hci _ rfl, List.append_nil]
  rw [if_neg (by simp)]
  cases s with
  | mk st items tc da ft oid pc =>
    simp only at htc hda hft
    simp only [OrderSession.mk.injEq, true_and, and_true]
    exact ⟨htc.symm, hda.symm, by rw [hft, htc]⟩

/-- Witness for C9_roundtrip: add two QB001 units to the fresh cart and
remove them again. -/
theorem C9_roundtrip_witness :
    (remove_item_from_cart "QB001"
        (add_item_to_cart [QB001] "QB001" 2 reset_order_session).2).2
      = reset_order_session :=
  C9_roundtrip [QB001] "QB001" 2 reset_order_session QB001 rfl (by decide)
    (by simp [reset_order_session]) rfl rfl rfl

/-- Claim C8, counterexample: an add command that parses to no product
(`found = none`) sent from the idle stage leaves the cart lines
unchanged but still moves the ordering stage to confirming — the stage
was mutated before parsing, so state is not left exactly as it was. -/
theorem C8_counterexample :
    (add_branch none reset_order_session).status = "confirming"
    ∧ reset_order_session.status = "idle"
    ∧ ("confirming" : String) ≠ "idle"
    ∧ (add_branch none reset_order_session).items = reset_order_session.items := by
  exact ⟨rfl, rfl, by decide, rfl⟩

/-- Claim C8 (amended): an unparseable add command changes no cart line,
total or order id and only produces the clarification response, but the
ordering stage does not always stay put: from confirming or calculating
it is kept, from any other stage it is forced to confirming before the
parse is attempted. -/
theorem C8_unparseable_add_keeps_cart (s : OrderSession) :
    (add_branch none s).items = s.items
    ∧ (add_branch none s).total_cost = s.total_cost
    ∧ (add_branch none s).discount_applied = s.discount_applied
    ∧ (add_branch none s).final_total = s.final_total
    ∧ (add_branch none s).order_id = s.order_id
    ∧ (add_branch none s).status =
        (if s.status = "confirming" ∨ s.status = "calculating" then s.status
         else "confirming") := by
  by_cases h : s.status = "confirming" ∨ s.status = "calculating"
  · simp only [add_branch, chat_add_to_cart, stage_fixup]
    rw [if_neg (not_not_intro h), if_pos h]
    exact ⟨rfl, rfl, rfl, rfl, rfl, rfl⟩
  · simp only [add_branch, chat_add_to_cart, stage_fixup]
    rw [if_pos h, if_neg h]
    exact ⟨rfl, rfl, rfl, rfl, rfl, rfl⟩

/-- The pricing-relevant fields of a product: everything except the
stock counter. -/
def stripPricing (p : Product) : ℕ × String × String × ℚ × ℚ × Option String :=
  (p.id, p.product_code, p.product_name, p.price_of_product, p.discount, p.scheme)

lemma stripPricing_apply_quantity_update (c : String) (q : ℕ) :
    ∀ inv : List Product,
      (apply_quantity_update inv c q).map stripPricing = inv.map stripPricing := by
  intro inv
  induction inv with
  | nil => rfl
  | cons a t ih =>
    simp only [apply_quantity_update, update_available_quantity]
    by_cases hc : (a.product_code == c) = true
    · rw [if_pos hc]
      by_cases hq : (q : ℤ) ≤ a.available_for_sale
      · rw [if_pos hq]
        simp only [List.map_cons]
        rfl
      · rw [if_neg hq]
    · rw [if_neg hc]
      simp only [List.map_cons, ih]

lemma stripPricing_update_product_quantities (reqs : List (String × ℕ)) :
    ∀ inv : List Product,
      ((update_product_quantities reqs inv).1).map stripPricing
        = inv.map stripPricing := by
  induction reqs with
  | nil => intro inv; rfl
  | cons cq rest ih =>
    intro inv
    have h1 := stripPricing_apply_quantity_update cq.1 cq.2 inv
    have h2 := ih (apply_quantity_update inv cq.1 cq.2)
    simp only [update_product_quantities] at h2 ⊢
    rw [List.foldl_cons]
    rw [h2, h1]

lemma find?_stripPricing :
    ∀ (l1 l2 : List Product), l1.map stripPricing = l2.map stripPricing →
      ∀ (c : String) (p1 : Product),
        l1.find? (fun p => p.product_code == c) = some p1 →
        ∃ p2, l2.find? (fun p => p.product_code == c) = some p2
          ∧ stripPricing p1 = stripPricing p2 := by
  intro l1
  induction l1 with
  | nil => intro l2 h c p1 hf; simp at hf
  | cons a t ih =>
    intro l2 h c p1 hf
    cases l2 with
    | nil => simp at h
    | cons b t2 =>
      simp only [List.map_cons, List.cons.injEq] at h
      obtain ⟨hhd, htl⟩ := h
      have hcode : a.product_code = b.product_code :=
        congrArg (fun x => x.2.1) hhd
      simp only [List.find?_cons] at hf ⊢
      cases hc : a.product_code == c with
      | true =>
        rw [hc] at hf
        injection hf with hf
        subst hf
        have hc2 : (b.product_code == c) = true := by
          rw [← hcode]; exact hc
        rw [hc2]
        exact ⟨b, rfl, hhd⟩
      | false =>
        rw [hc] at hf
        have hc2 : (b.product_code == c) = false := by
          rw [← hcode]; exact hc
        rw [hc2]
        exact ih t2 htl c p1 hf

lemma get_product_pricing_stripPricing (p1 p2 : Product)
    (h : stripPricing p1 = stripPricing p2) (q : ℕ) :
    get_product_pricing (some p1) q = get_product_pricing (some p2) q := by
  cases p1
  cases p2
  simp only [stripPricing, Prod.mk.injEq] at h
  obtain ⟨h1, h2, h3, h4, h5, h6⟩ := h
  subst h1; subst h2; subst h3; subst h4; subst h5; subst h6
  rfl

lemma enh_add_items_recomputed :
    ∀ (cart : List (String × ℕ)) (inv inv0 : List Product),
      inv.map stripPricing = inv0.map stripPricing →
      ∀ item ∈ (enh_add_items cart inv).1, ∃ p,
        get_product_by_code inv0 item.product_code = some p
        ∧ item.unit_price
            = (get_product_pricing (some p) item.product_quantity_ordered).final_price
        ∧ item.total_price
            = (get_product_pricing (some p) item.product_quantity_ordered).total_amount := by
  intro cart
  induction cart with
  | nil => intro inv inv0 h item hmem; simp [enh_add_items] at hmem
  | cons cq rest ih =>
    intro inv inv0 h item hmem
    obtain ⟨c, q⟩ := cq
    simp only [enh_add_items] at hmem
    cases hf : get_product_by_code inv c with
    | none =>
      rw [hf] at hmem
      exact ih inv inv0 h item hmem
    | some pcur =>
      rw [hf] at hmem
      rcases List.mem_cons.mp hmem with heq | hmem2
      · subst heq
        obtain ⟨p0, hp0, hstrip⟩ :=
          find?_stripPricing inv inv0 h c pcur hf
        refine ⟨p0, hp0, ?_, ?_⟩
        · show (get_product_pricing (some pcur) q).final_price = _
          rw [get_product_pricing_stripPricing pcur p0 hstrip q]
        · show (get_product_pricing (some pcur) q).total_amount = _
          rw [get_product_pricing_stripPricing pcur p0 hstrip q]
      · have hstrip2 :
            ((update_product_quantities [(c, q)] inv).1).map stripPricing
              = inv0.map stripPricing := by
          rw [stripPricing_update_product_quantities, h]
        exact ih _ inv0 hstrip2 item hmem2

/-- Claim C4 (amended): when the enhanced finalize succeeds, every
order line's charged unit price and line total are recomputed at
finalize time by `get_product_pricing` against the catalog at the
line's quantity — not taken from the cart's stored
`final_price`/`item_total`, so they agree with the cart only when the
stored pricing equals a fresh computation. -/
theorem C4_finalize_recomputes (new_order_id : String)
    (cart_items : List (String × ℕ)) (inventory : List Product)
    (o : OrderRec) (inv2 : List Product)
    (h : enhanced_create_order_from_cart new_order_id cart_items inventory
      = (some o, inv2)) :
    ∀ item ∈ o.items, ∃ p,
      get_product_by_code inventory item.product_code = some p
      ∧ item.unit_price
          = (get_product_pricing (some p) item.product_quantity_ordered).final_price
      ∧ item.total_price
          = (get_product_pricing (some p) item.product_quantity_ordered).total_amount := by
  simp only [enhanced_create_order_from_cart] at h
  split at h
  · simp at h
  · split at h
    · simp at h
    · rw [Prod.mk.injEq] at h
      obtain ⟨h1, _⟩ := h
      injection h1 with h1
      have hitems : o.items = (enh_add_items cart_items inventory).1 := by
        rw [← h1]
      rw [hitems]
      exact enh_add_items_recomputed cart_items inventory inventory rfl

/-- Claim C4, counterexample: the additively-priced cart line
(QB001 x 3 shown at 7050) is charged 4700 at finalize time, because the
enhanced finalize reprices the line through `get_product_pricing` at
quantity 3 instead of using the cart's stored line total. -/
theorem C4_counterexample :
    two_step_cart.items.map (fun it => (it.product_code, it.quantity, it.item_total))
      = [("QB001", 3, (7050 : ℚ))]
    ∧ ((enhanced_create_order_from_cart "QBORD2"
        (two_step_cart.items.map (fun it => (it.product_code, it.quantity)))
        [QB001]).1.map
          (fun o => o.items.map (fun it => (it.product_code, it.total_price))))
      = some [("QB001", (4700 : ℚ))]
    ∧ ((7050 : ℚ) ≠ 4700) := by
  refine ⟨?_, ?_, by norm_num⟩
  · rw [two_step_cart_eval]
    rfl
  · rw [two_step_cart_eval]
    show ((enhanced_create_order_from_cart "QBORD2" [("QB001", 3)] [QB001]).1.map
      (fun o => o.items.map (fun it => (it.product_code, it.total_price))))
        = some [("QB001", (4700 : ℚ))]
    rw [show (enhanced_create_order_from_cart "QBORD2" [("QB001", 3)] [QB001]).1
      = some { order_id := "QBORD2", items := [{ product_id := 1, product_code := "QB001", product_quantity_ordered := 3, unit_price := (get_product_pricing (some QB001) 3).final_price, total_price := (get_product_pricing (some QB001) 3).total_amount }], total_amount := (get_product_pricing (some QB001) 3).total_amount + 0, status := "confirmed" } from rfl]
    simp only [Option.map_some', List.map_cons, List.map_nil]
    rw [pricing_QB001_3]

/-- The order line produced by finalizing a one-line cart of two QB001
units. -/
def c4_order_line : OrderItemRec :=
  { product_id := 1, product_code := "QB001", product_quantity_ordered := 2,
    unit_price := (get_product_pricing (some QB001) 2).final_price,
    total_price := (get_product_pricing (some QB001) 2).total_amount }

/-- Witness for C4_finalize_recomputes: the single line of a successful
two-unit QB001 finalize carries the recomputed pricing. -/
theorem C4_finalize_recomputes_witness :
    ∃ p, get_product_by_code [QB001] c4_order_line.product_code = some p
      ∧ c4_order_line.unit_price
          = (get_product_pricing (some p)
              c4_order_line.product_quantity_ordered).final_price
      ∧ c4_order_line.total_price
          = (get_product_pricing (some p)
              c4_order_line.product_quantity_ordered).total_amount :=
  C4_finalize_recomputes "QBORD3" [("QB001", 2)] [QB001]
    { order_id := "QBORD3", items := (enh_add_items [("QB001", 2)] [QB001]).1,
      total_amount := (enh_add_items [("QB001", 2)] [QB001]).2.1,
      status := "confirmed" }
    (enh_add_items [("QB001", 2)] [QB001]).2.2 rfl c4_order_line
    (List.mem_cons_self c4_order_line [])


lemma items_eq_nil_of_hos_false (s : OrderSession)
    (h : has_order_session s = false) : s.items = [] := by
  simp only [has_order_session, Bool.or_eq_false_iff, Bool.and_eq_false_iff,
    Bool.not_eq_false'] at h
  exact List.isEmpty_iff.mp h.2

lemma add_branch_on_empty (s : OrderSession) (hs : s.items = [])
    (p : Product) (q : ℕ) :
    (add_branch (some (p, q)) s).items = [mk_chat_item p q] := by
  have h1 : (stage_fixup s).items = [] := by
    unfold stage_fixup
    split
    · simpa using hs
    · simpa using hs
  simp only [add_branch, chat_add_to_cart, h1, List.any_nil,
    Bool.false_eq_true, if_false, List.nil_append]

lemma finalize_success_step_some (s : OrderSession)
    (r : Option OrderRec × List Product) (s' : OrderSession)
    (inv' : List Product) (o : OrderRec)
    (h : finalize_success_step s r = (s', inv', some o)) :
    s' = reset_order_session := by
  obtain ⟨r1, r2⟩ := r
  cases r1 with
  | some o2 =>
    simp only [finalize_success_step] at h
    rw [Prod.mk.injEq, Prod.mk.injEq] at h
    exact h.1.symm
  | none =>
    simp only [finalize_success_step] at h
    simp at h

lemma finalize_completed_step_some (s : OrderSession)
    (r : Option OrderRec × List Product) (s' : OrderSession)
    (inv' : List Product) (o : OrderRec)
    (h : finalize_completed_step s r = (s', inv', some o)) :
    s'.items = s.items ∧ s'.status = "completed"
      ∧ s'.order_id = some o.order_id := by
  obtain ⟨r1, r2⟩ := r
  cases r1 with
  | some o2 =>
    simp only [finalize_completed_step] at h
    rw [Prod.mk.injEq, Prod.mk.injEq] at h
    obtain ⟨h1, _, h3⟩ := h
    injection h3 with h3
    subst h3
    rw [← h1]
    exact ⟨rfl, rfl, rfl⟩
  | none =>
    simp only [finalize_completed_step] at h
    simp at h

lemma place_order_after_clear_success (new_order_id : String)
    (flags : MsgFlags) (parsed_items : List CartItem) (llm_ready : Bool)
    (llm_cart : List (String × ℕ)) (s : OrderSession)
    (inventory : List Product) (s' : OrderSession) (inv' : List Product)
    (o : OrderRec)
    (h : place_order_after_clear new_order_id flags parsed_items llm_ready
      llm_cart s inventory = (s', inv', some o)) :
    s'.items = [] ∧ (has_order_session s = true → s' = reset_order_session) := by
  by_cases hc1 : (!(has_order_session s) && !flags.is_simple_confirmation
      && !flags.is_finalizing) = true
  · simp only [place_order_after_clear, if_pos hc1] at h
    simp at h
  · by_cases hc2 : (flags.is_simple_confirmation && has_order_session s) = true
    · simp only [place_order_after_clear, if_neg hc1, if_pos hc2] at h
      simp at h
    · by_cases hc3 : (flags.is_finalizing && has_order_session s) = true
      · simp only [place_order_after_clear, if_neg hc1, if_neg hc2,
          if_pos hc3] at h
        have hr := finalize_success_step_some _ _ _ _ _ h
        subst hr
        exact ⟨rfl, fun _ => rfl⟩
      · by_cases hc4 : (!flags.is_detailed_confirmation
            && !flags.is_simple_confirmation) = true
        · simp only [place_order_after_clear, if_neg hc1, if_neg hc2,
            if_neg hc3, if_pos hc4] at h
          split at h
          · split at h
            · simp at h
            · simp at h
          · simp at h
        · by_cases hc5 : flags.is_detailed_confirmation = true
          · simp only [place_order_after_clear, if_neg hc1, if_neg hc2,
              if_neg hc3, if_neg hc4, if_pos hc5] at h
            simp at h
          · by_cases hc7 : (flags.is_finalizing && !(has_order_session s)) = true
            · simp only [place_order_after_clear, if_neg hc1, if_neg hc2,
                if_neg hc3, if_neg hc4, if_neg hc5, if_neg hc3,
                if_pos hc7] at h
              have hhos : has_order_session s = false := by
                rcases Bool.and_eq_true_iff.mp hc7 with ⟨_, hn⟩
                simpa using hn
              have hempty := items_eq_nil_of_hos_false s hhos
              split at h
              · have hr := finalize_completed_step_some _ _ _ _ _ h
                refine ⟨by rw [hr.1, hempty], ?_⟩
                intro hc
                rw [hc] at hhos
                cases hhos
              · simp at h
            · simp only [place_order_after_clear, if_neg hc1, if_neg hc2,
                if_neg hc3, if_neg hc4, if_neg hc5, if_neg hc3,
                if_neg hc7] at h
              simp at h

/-- Claim C7 (amended): whenever a PLACE_ORDER message successfully
creates an order, the session cart it leaves behind has no items, so a
subsequent add command yields a cart containing exactly the newly added
line — no line of the completed order leaks into the next cart; and on
the live finalize path (a non-empty session cart) the session is fully
force-reset to the fresh empty idle cart.  The
parse-from-conversation finalize, however, leaves a completed session
carrying the order id, which a later add mutates in place rather than
resetting (see C7_counterexample). -/
theorem C7_finalize_then_add (new_order_id : String) (flags : MsgFlags)
    (parsed_items : List CartItem) (llm_ready : Bool)
    (llm_cart : List (String × ℕ)) (s0 : OrderSession)
    (inventory : List Product) (s' : OrderSession) (inv' : List Product)
    (o : OrderRec)
    (h : place_order_branch new_order_id flags parsed_items llm_ready llm_cart
      s0 inventory = (s', inv', some o)) :
    s'.items = []
    ∧ (has_order_session
        (if s0.status == "completed" then reset_order_session else s0) = true →
        s' = reset_order_session)
    ∧ ∀ (p : Product) (q : ℕ),
        (add_branch (some (p, q)) s').items = [mk_chat_item p q] := by
  have main := place_order_after_clear_success new_order_id flags parsed_items
    llm_ready llm_cart
    (if s0.status == "completed" then reset_order_session else s0)
    inventory s' inv' o h
  exact ⟨main.1, main.2, fun p q => add_branch_on_empty s' main.1 p q⟩

/-- Claim C7, counterexample: a finalize through the
parse-from-conversation path ("confirm my order" with an empty session
cart, order parsed by the LLM) succeeds and leaves the session
completed with the order id; the next add command is neither rejected
(it accepts the item) nor preceded by a reset to a fresh idle cart (the
stale order id survives into the mutated cart). -/
theorem C7_counterexample :
    ((place_order_branch "QBORD5" ⟨true, false, true⟩ [] true [("QB001", 2)]
        reset_order_session [QB001]).2.2).isSome = true
    ∧ (place_order_branch "QBORD5" ⟨true, false, true⟩ [] true [("QB001", 2)]
        reset_order_session [QB001]).1.status = "completed"
    ∧ (add_branch (some (QB001, 1))
        (place_order_branch "QBORD5" ⟨true, false, true⟩ [] true [("QB001", 2)]
          reset_order_session [QB001]).1).items.length = 1
    ∧ (place_order_branch "QBORD5" ⟨true, false, true⟩ [] true [("QB001", 2)]
        reset_order_session [QB001]).1.items.length = 0
    ∧ (add_branch (some (QB001, 1))
        (place_order_branch "QBORD5" ⟨true, false, true⟩ [] true [("QB001", 2)]
          reset_order_session [QB001]).1).order_id = some "QBORD5"
    ∧ (add_branch (some (QB001, 1)) reset_order_session).order_id = none :=
  ⟨rfl, rfl, rfl, rfl, rfl, rfl⟩

/-- The session cart holding one line of two QB001 units, ready to
finalize. -/
def c7_start_cart : OrderSession :=
  { status := "confirming", items := [qb001_line_2], total_cost := 4700,
    discount_applied := 300, final_total := 4700, order_id := none,
    pending_confirmation := true }

/-- Witness for C7_finalize_then_add: finalizing the one-line cart via
the enhanced path resets the session, and the next add yields exactly
the new line. -/
theorem C7_finalize_then_add_witness :
    (place_order_branch "QBORD4" ⟨false, false, true⟩ [] false []
        c7_start_cart [QB001]).1.items = []
    ∧ (add_branch (some (QB001, 1))
        (place_order_branch "QBORD4" ⟨false, false, true⟩ [] false []
          c7_start_cart [QB001]).1).items = [mk_chat_item QB001 1] := by
  have h := C7_finalize_then_add "QBORD4" ⟨false, false, true⟩ [] false []
    c7_start_cart [QB001] reset_order_session
    (enh_add_items [("QB001", 2)] [QB001]).2.2
    { order_id := "QBORD4", items := (enh_add_items [("QB001", 2)] [QB001]).1,
      total_amount := (enh_add_items [("QB001", 2)] [QB001]).2.1,
      status := "confirmed" } rfl
  exact ⟨h.1, h.2.2 QB001 1⟩
